import Mathlib

/-!
Verification of the authenticated-session poller of the `omada_direct`
Home Assistant integration (and the `cowboy` coordinator it is compared
with), shallowly embedded from
`homeassistant/components/omada_direct/client.py`,
`homeassistant/components/omada_direct/coordinator.py` and
`homeassistant/components/cowboy/coordinator.py`.

Network traffic is modelled by "world" records describing what the remote
endpoint answers; each client operation is a pure function from the client
state and the world to the new state, the list of HTTP requests it issued,
and an `Except` value standing for the Python return / raise.
-/

/-- The Python exception taxonomy of `client.py` plus the exception kinds of
the surrounding code (`aiohttp.ClientConnectorError`, `asyncio.TimeoutError`,
`KeyError`, Home Assistant's `UpdateFailed`, and a generic `Exception`). -/
inductive PyError where
  | loginError (msg : String)
  | fetchDataError (msg : String)
  | logoutError (msg : String)
  | omadaClientError (msg : String)
  | clientConnectorError (msg : String)
  | timeoutError
  | keyError (msg : String)
  | updateFailed (msg : String)
  | otherExc (msg : String)
  deriving Repr, DecidableEq

/-- Python `str(e)` of the modelled Python exception (the message it was built
with; `str(asyncio.TimeoutError())` is the empty string). -/
def pyMsg : PyError → String
  | .loginError m => m
  | .fetchDataError m => m
  | .logoutError m => m
  | .omadaClientError m => m
  | .clientConnectorError m => m
  | .timeoutError => ""
  | .keyError m => m
  | .updateFailed m => m
  | .otherExc m => m

/-- Mutable attributes of `OmadaClient`: credentials from `__init__`,
`self.session` (modelled by whether it is set) and `self.logged_in`. -/
structure ClientState where
  host : String
  username : String
  password : String
  hasSession : Bool
  loggedIn : Bool
  deriving Repr, DecidableEq

/-- Python `str.lower()` (ASCII view, as used on the login response body). -/
def strLower (s : String) : String :=
  String.mk (s.toList.map Char.toLower)

/-- Python `str.upper()` (ASCII view, as used on the password digest). -/
def strUpper (s : String) : String :=
  String.mk (s.toList.map Char.toUpper)

/-- Containment `needle in hay` on character lists: some suffix of `hay` starts with
`needle`. -/
def strContainsAux (needle : List Char) : List Char → Bool
  | [] => needle.isEmpty
  | c :: rest => needle.isPrefixOf (c :: rest) || strContainsAux needle rest

/-- Python's `needle in hay` substring test. -/
def strContains (hay needle : String) : Bool :=
  strContainsAux needle.toList hay.toList

/-- What the remote answered the login POST with: HTTP status, response
body text, the `Content-Length` header, and the value of the `JSESSIONID`
cookie the cookie jar holds for the login URL afterwards (if any). -/
structure LoginResponse where
  status : Nat
  body : String
  contentLength : Option String
  jsessionid : Option String
  deriving Repr, DecidableEq

/-- Outcome of one HTTP exchange: a response, or the exception the
transport raised (`ClientConnectorError`, `asyncio.TimeoutError`, or any
other `Exception`). -/
inductive HttpOutcome (R : Type) where
  | resp (r : R)
  | connError (msg : String)
  | timeout
  | raised (msg : String)
  deriving Repr

/-- Environment of `connect` + `ensure_authenticated`: whether creating the
`aiohttp.ClientSession` raises, and how the remote answers the login POST. -/
structure LoginWorld where
  connectFails : Option String
  loginResult : HttpOutcome LoginResponse

/-- The HTTP requests the client can issue, with their form payload or
query parameters. -/
inductive Request where
  | loginPost (payload : List (String × String))
  | clientsGet (params : List (String × String))
  | deviceGet (params : List (String × String))
  | logoutGet
  deriving Repr, DecidableEq

def isLoginPost : Request → Bool
  | .loginPost _ => true
  | _ => false

/-- Model of `OmadaClient.connect`: on success `self.session` is set; on an
exception it raises `OmadaClientError` and `self.session` stays unset. -/
def connect (st : ClientState) (w : LoginWorld) : ClientState × Except PyError Unit :=
  match w.connectFails with
  | some m => (st, .error (.omadaClientError ("Failed to establish HTTP session: " ++ m)))
  | none => ({ st with hasSession := true }, .ok ())

/-- The login form payload of `ensure_authenticated`: plaintext username
and `hashlib.md5(password).hexdigest().upper()`.  `md5HexDigest` is
defined below with the MD5 claims; here it is used abstractly. -/
def loginPayloadWith (digest : String → String) (username password : String) :
    List (String × String) :=
  [("username", username), ("password", strUpper (digest password))]

/-- The `try:` block of `ensure_authenticated` (lines 197-238): issue the
login POST and interpret status, body and cookie jar. -/
def loginAttemptWith (digest : String → String) (st : ClientState) (w : LoginWorld) :
    ClientState × List Request × Except PyError Unit :=
  let reqs := [Request.loginPost (loginPayloadWith digest st.username st.password)]
  match w.loginResult with
  | .resp r =>
    if r.status == 200 then
      if strContains (strLower r.body) "success" || r.contentLength == some "0" then
        match r.jsessionid with
        | some v =>
          if v == "" then
            (st, reqs, .error (.loginError "Login failed: JSESSIONID cookie missing or invalid."))
          else
            ({ st with loggedIn := true }, reqs, .ok ())
        | none =>
          (st, reqs, .error (.loginError "Login failed: JSESSIONID cookie missing or invalid."))
      else
        (st, reqs, .error (.loginError "Login failed: Unexpected response content."))
    else if r.status == 401 then
      (st, reqs, .error (.loginError "Login failed: Unauthorized (401). Check your credentials."))
    else
      (st, reqs, .error (.loginError ("Login failed with status code " ++ toString r.status ++ ".")))
  | .connError m => (st, reqs, .error (.clientConnectorError m))
  | .timeout => (st, reqs, .error .timeoutError)
  | .raised m => (st, reqs, .error (.otherExc m))

/-- The `except` clauses of `ensure_authenticated` (lines 239-247).  Note
that a `LoginError` raised inside the `try:` block is itself caught by the
final `except Exception` clause and re-raised wrapped. -/
def loginHandler : PyError → PyError
  | .clientConnectorError m => .loginError ("Connection error during login: " ++ m)
  | .timeoutError => .loginError "Login request timed out."
  | e => .loginError ("An unexpected error occurred during login: " ++ pyMsg e)

/-- The `try:`/`except` pair of `ensure_authenticated`: the login attempt
with the `except` clauses applied to whatever it raises. -/
def loginAndWrap (digest : String → String) (st : ClientState) (w : LoginWorld) :
    ClientState × List Request × Except PyError Unit :=
  let r := loginAttemptWith digest st w
  match r.2.2 with
  | .ok _ => (r.1, r.2.1, .ok ())
  | .error e => (r.1, r.2.1, .error (loginHandler e))

/-- Model of `OmadaClient.ensure_authenticated` (lines 177-247): no-op when already
logged in, otherwise `connect` if there is no session (outside the `try:`,
so its `OmadaClientError` is not turned into a `LoginError`), then the
login POST with the `except` clauses applied. -/
def ensureAuthenticatedWith (digest : String → String) (st : ClientState) (w : LoginWorld) :
    ClientState × List Request × Except PyError Unit :=
  if st.loggedIn then (st, [], .ok ())
  else
    let c := if st.hasSession then (st, Except.ok ()) else connect st w
    match c.2 with
    | .error e => (c.1, [], .error e)
    | .ok _ => loginAndWrap digest c.1 w

/-- The parsed JSON body of a data endpoint: a Python dict whose `data` key
(if present) is the list the coordinator extracts with `.get("data", [])`.
The individual client records are opaque to the claims. -/
structure ClientsJson where
  dataField : Option (List String)
  deriving Repr, DecidableEq

/-- What the remote answered a data GET with: HTTP status, `resp.json()`
outcome (parsed value or the parse exception message), and body text. -/
structure FetchResponse where
  status : Nat
  parsed : Except String ClientsJson
  body : String
  deriving Repr

/-- Environment of one `fetch_clients` call: what `ensure_authenticated`
sees plus how the remote answers the clients GET. -/
structure FetchWorld where
  login : LoginWorld
  fetchResult : HttpOutcome FetchResponse

/-- The `try:` block of `fetch_clients` around the GET (lines 270-292):
issue the clients GET and interpret status and JSON parse outcome.  The
JSON parse failure is wrapped by the inner `except` into a
`FetchDataError` already inside the `try:`. -/
def fetchAttempt (w : FetchWorld) : List Request × Except PyError ClientsJson :=
  let reqs := [Request.clientsGet [("operation", "load")]]
  match w.fetchResult with
  | .resp r =>
    if r.status == 200 then
      match r.parsed with
      | .ok d => (reqs, .ok d)
      | .error m => (reqs, .error (.fetchDataError ("Failed to parse JSON response: " ++ m)))
    else
      (reqs, .error (.fetchDataError ("Failed to fetch data with status code " ++ toString r.status ++ ".")))
  | .connError m => (reqs, .error (.clientConnectorError m))
  | .timeout => (reqs, .error .timeoutError)
  | .raised m => (reqs, .error (.otherExc m))

/-- The `except` clauses of `fetch_clients` (lines 293-303).  As in login,
a `FetchDataError` raised inside the `try:` block is caught again by the
final `except Exception` clause and re-raised wrapped. -/
def fetchHandler : PyError → PyError
  | .clientConnectorError m => .fetchDataError ("Connection error while fetching data: " ++ m)
  | .timeoutError => .fetchDataError "Data fetch request timed out."
  | e => .fetchDataError ("An unexpected error occurred while fetching data: " ++ pyMsg e)

/-- Model of `OmadaClient.fetch_clients` (lines 249-303): `ensure_authenticated`
first, wrapping only a `LoginError` into `FetchDataError` (any other
exception from it propagates), then the GET with its `except` clauses.
A failed fetch does not touch `self.logged_in`. -/
def fetchClientsWith (digest : String → String) (st : ClientState) (w : FetchWorld) :
    ClientState × List Request × Except PyError ClientsJson :=
  let a := ensureAuthenticatedWith digest st w.login
  match a.2.2 with
  | .error (.loginError m) => (a.1, a.2.1, .error (.fetchDataError ("Authentication failed: " ++ m)))
  | .error e => (a.1, a.2.1, .error e)
  | .ok _ =>
    let f := fetchAttempt w
    match f.2 with
    | .ok d => (a.1, a.2.1 ++ f.1, .ok d)
    | .error e => (a.1, a.2.1 ++ f.1, .error (fetchHandler e))

/-- Environment of one `fetch_device_info` call. -/
structure DeviceWorld where
  fetchResult : HttpOutcome FetchResponse

/-- The single `except Exception` clause of `fetch_device_info`
(lines 333-337): every exception becomes a `FetchDataError`. -/
def deviceHandler (e : PyError) : PyError :=
  .fetchDataError ("An error occurred while fetching device info: " ++ pyMsg e)

/-- Model of `OmadaClient.fetch_device_info` (lines 305-337): no
`ensure_authenticated` call; the GET is issued directly on `self.session`
(when there is no session, `self.session.get` raises an `AttributeError`,
caught by the `except Exception` clause).  The explicit `FetchDataError`
raised on a non-200 status inside the `try:` is caught by the same clause
and re-raised wrapped. -/
def fetch_device_info (st : ClientState) (w : DeviceWorld) :
    ClientState × List Request × Except PyError ClientsJson :=
  if st.hasSession then
    let reqs := [Request.deviceGet [("operation", "read")]]
    match w.fetchResult with
    | .resp r =>
      if r.status == 200 then
        match r.parsed with
        | .ok d => (st, reqs, .ok d)
        | .error m => (st, reqs, .error (deviceHandler (.otherExc m)))
      else
        (st, reqs, .error (deviceHandler
          (.fetchDataError ("Failed to fetch device info with status code " ++ toString r.status ++ "."))))
    | .connError m => (st, reqs, .error (deviceHandler (.clientConnectorError m)))
    | .timeout => (st, reqs, .error (deviceHandler .timeoutError))
    | .raised m => (st, reqs, .error (deviceHandler (.otherExc m)))
  else
    (st, [], .error (deviceHandler (.otherExc "NoneType object has no attribute get")))

/-- Environment of one `logout` call: what the remote answers the logout
GET with (only the status is inspected). -/
structure LogoutWorld where
  result : HttpOutcome Nat

/-- The `except` clauses of `logout` (lines 362-370); the `LogoutError`
raised on a non-200 status inside the `try:` is caught by the final
`except Exception` clause and re-raised wrapped. -/
def logoutHandler : PyError → PyError
  | .clientConnectorError m => .logoutError ("Connection error during logout: " ++ m)
  | .timeoutError => .logoutError "Logout request timed out."
  | e => .logoutError ("An unexpected error occurred during logout: " ++ pyMsg e)

/-- Model of `OmadaClient.logout` (lines 339-370): silent no-op when there is no
session or the client is not logged in; otherwise issue the logout GET and
clear `self.logged_in` only on a 200 status — on any other outcome a
`LogoutError` is raised and `self.logged_in` is left as it was. -/
def logout (st : ClientState) (w : LogoutWorld) :
    ClientState × List Request × Except PyError Unit :=
  if !st.hasSession || !st.loggedIn then (st, [], .ok ())
  else
    let reqs := [Request.logoutGet]
    match w.result with
    | .resp status =>
      if status == 200 then ({ st with loggedIn := false }, reqs, .ok ())
      else
        (st, reqs, .error (logoutHandler
          (.logoutError ("Logout failed with status code " ++ toString status ++ "."))))
    | .connError m => (st, reqs, .error (logoutHandler (.clientConnectorError m)))
    | .timeout => (st, reqs, .error (logoutHandler .timeoutError))
    | .raised m => (st, reqs, .error (logoutHandler (.otherExc m)))

/-!
MD5, as `hashlib.md5` computes it (RFC 1321), on byte lists with 32-bit
words represented as `Nat` reduced mod `2 ^ 32`.  The login payload of
`ensure_authenticated` sends `hashlib.md5(password).hexdigest().upper()`.
-/

/-- Addition mod `2 ^ 32`. -/
def add32 (a b : Nat) : Nat := (a + b) % 4294967296

/-- Bitwise complement on 32-bit words (inputs are kept below `2 ^ 32`). -/
def not32 (x : Nat) : Nat := 4294967295 - x % 4294967296

/-- Left rotation of a 32-bit word by `s` places. -/
def rotl32 (x s : Nat) : Nat :=
  (x * 2 ^ s % 4294967296 + x % 4294967296 / 2 ^ (32 - s)) % 4294967296

def mdF (b c d : Nat) : Nat := b &&& c ||| not32 b &&& d

def mdG (b c d : Nat) : Nat := d &&& b ||| not32 d &&& c

def mdH (b c d : Nat) : Nat := b ^^^ c ^^^ d

def mdI (b c d : Nat) : Nat := c ^^^ (b ||| not32 d)

/-- The 64 MD5 sine-derived round constants. -/
def md5K : List Nat :=
  [3614090360, 3905402710, 606105819, 3250441966,
   4118548399, 1200080426, 2821735955, 4249261313,
   1770035416, 2336552879, 4294925233, 2304563134,
   1804603682, 4254626195, 2792965006, 1236535329,
   4129170786, 3225465664, 643717713, 3921069994,
   3593408605, 38016083, 3634488961, 3889429448,
   568446438, 3275163606, 4107603335, 1163531501,
   2850285829, 4243563512, 1735328473, 2368359562,
   4294588738, 2272392833, 1839030562, 4259657740,
   2763975236, 1272893353, 4139469664, 3200236656,
   681279174, 3936430074, 3572445317, 76029189,
   3654602809, 3873151461, 530742520, 3299628645,
   4096336452, 1126891415, 2878612391, 4237533241,
   1700485571, 2399980690, 4293915773, 2240044497,
   1873313359, 4264355552, 2734768916, 1309151649,
   4149444226, 3174756917, 718787259, 3951481745]

/-- The 64 MD5 per-round left-rotation amounts. -/
def md5S : List Nat :=
  [7, 12, 17, 22, 7, 12, 17, 22, 7, 12, 17, 22, 7, 12, 17, 22,
   5, 9, 14, 20, 5, 9, 14, 20, 5, 9, 14, 20, 5, 9, 14, 20,
   4, 11, 16, 23, 4, 11, 16, 23, 4, 11, 16, 23, 4, 11, 16, 23,
   6, 10, 15, 21, 6, 10, 15, 21, 6, 10, 15, 21, 6, 10, 15, 21]

/-- One MD5 round `i` on state `(a, b, c, d)` with message words `M`. -/
def md5Round (M : List Nat) (st : Nat × Nat × Nat × Nat) (i : Nat) :
    Nat × Nat × Nat × Nat :=
  let a := st.1
  let b := st.2.1
  let c := st.2.2.1
  let d := st.2.2.2
  let fg : Nat × Nat :=
    if i < 16 then (mdF b c d, i)
    else if i < 32 then (mdG b c d, (5 * i + 1) % 16)
    else if i < 48 then (mdH b c d, (3 * i + 5) % 16)
    else (mdI b c d, 7 * i % 16)
  let f := add32 (add32 (add32 fg.1 a) (md5K.getD i 0)) (M.getD fg.2 0)
  (d, add32 b (rotl32 f (md5S.getD i 0)), b, c)

/-- Process one 512-bit block (given as 16 little-endian words). -/
def md5Block (st : Nat × Nat × Nat × Nat) (M : List Nat) : Nat × Nat × Nat × Nat :=
  let r := (List.range 64).foldl (md5Round M) st
  (add32 st.1 r.1, add32 st.2.1 r.2.1, add32 st.2.2.1 r.2.2.1, add32 st.2.2.2 r.2.2.2)

/-- The `n` little-endian bytes of `v`. -/
def leBytes : Nat → Nat → List Nat
  | 0, _ => []
  | k + 1, v => v % 256 :: leBytes k (v / 256)

/-- Group 4 consecutive bytes into one little-endian 32-bit word. -/
def bytesToWords : List Nat → List Nat
  | b0 :: b1 :: b2 :: b3 :: rest =>
    (b0 + 256 * b1 + 65536 * b2 + 16777216 * b3) :: bytesToWords rest
  | _ => []

/-- Split into 64-byte chunks (`fuel` bounds the recursion). -/
def chunks64 : Nat → List Nat → List (List Nat)
  | _, [] => []
  | 0, _ => []
  | fuel + 1, l => l.take 64 :: chunks64 fuel (l.drop 64)

/-- MD5 padding: `0x80`, zeros to 56 mod 64, then the 64-bit LE bit length. -/
def md5Pad (msg : List Nat) : List Nat :=
  let z := (120 - (msg.length + 1) % 64) % 64
  msg ++ [128] ++ List.replicate z 0 ++ leBytes 8 (8 * msg.length % 18446744073709551616)

/-- The 16-byte MD5 digest of a byte list. -/
def md5Digest (msg : List Nat) : List Nat :=
  let padded := md5Pad msg
  let blocks := (chunks64 padded.length padded).map bytesToWords
  let st := blocks.foldl md5Block (1732584193, 4023233417, 2562383102, 271733878)
  leBytes 4 st.1 ++ leBytes 4 st.2.1 ++ leBytes 4 st.2.2.1 ++ leBytes 4 st.2.2.2

/-- Lowercase hexadecimal digit characters. -/
def hexChar (n : Nat) : Char :=
  "0123456789abcdef".toList.getD n (Char.ofNat 48)

/-- Two lowercase hex characters of one byte. -/
def byteToHex (b : Nat) : List Char := [hexChar (b / 16 % 16), hexChar (b % 16)]

/-- Python `hashlib.md5(s.encode()).hexdigest()`: the 32-character lowercase hex
digest of the UTF-8 bytes of `s`. -/
def md5HexDigest (s : String) : String :=
  String.mk (((md5Digest (s.toUTF8.toList.map UInt8.toNat)).map byteToHex).flatten)

/-- The login form payload (lines 192-195): username in the clear, the
uppercased MD5 hex digest in the password field. -/
def loginPayload (username password : String) : List (String × String) :=
  loginPayloadWith md5HexDigest username password

/-- Specialization of `ensure_authenticated` to the real digest function. -/
def ensure_authenticated (st : ClientState) (w : LoginWorld) :
    ClientState × List Request × Except PyError Unit :=
  ensureAuthenticatedWith md5HexDigest st w

/-- Specialization of `fetch_clients` to the real digest function. -/
def fetch_clients (st : ClientState) (w : FetchWorld) :
    ClientState × List Request × Except PyError ClientsJson :=
  fetchClientsWith md5HexDigest st w

/-!
The coordinators.  `OmadaClientUpdateCoordinator._async_update_data`
(`omada_direct/coordinator.py` lines 23-38) and
`CowboyUpdateCoordinator._async_update_data` (`cowboy/coordinator.py`
lines 44-60), plus the host framework's publish step, which is not code of
this repository.
-/

/-- The value returned by a successful Omada coordinator tick. -/
structure OmadaCoordData where
  clients : List String
  access_point_mac : String
  deriving Repr, DecidableEq

/-- Model of `OmadaClientUpdateCoordinator._async_update_data`:
`ensure_authenticated`, then `fetch_clients` (whose internal
`ensure_authenticated` is then a no-op), extract `.get("data", [])`, and
wrap every exception of any kind into `UpdateFailed` via the single
`except Exception` clause. -/
def omada_async_update_data (st : ClientState) (w : FetchWorld) (mac : String) :
    ClientState × Except PyError OmadaCoordData :=
  let a := ensure_authenticated st w.login
  match a.2.2 with
  | .error e => (a.1, .error (.updateFailed ("Error fetching data: " ++ pyMsg e)))
  | .ok _ =>
    let f := fetch_clients a.1 w
    match f.2.2 with
    | .error e => (f.1, .error (.updateFailed ("Error fetching data: " ++ pyMsg e)))
    | .ok d => (f.1, .ok { clients := d.dataField.getD [], access_point_mac := mac })

/-- Model of `CowboyUpdateCoordinator._async_update_data`: the executor job's
outcome (`vars(bike)`, an attribute dict) is returned as is; only a
`KeyError` is caught and turned into `UpdateFailed` — any other exception
(for instance the `TimeoutError` of the expired `asyncio.timeout` block)
propagates raw. -/
def cowboy_async_update_data (outcome : Except PyError (List (String × String))) :
    Except PyError (List (String × String)) :=
  match outcome with
  | .ok d => .ok d
  | .error (.keyError _) => .error (.updateFailed "Unable to fetch data from Cowboy API")
  | .error e => .error e

/-- Does a client-call outcome stand for a raised `UpdateFailed`? -/
def isUpdateFailed {α : Type} : Except PyError α → Bool
  | .error (.updateFailed _) => true
  | _ => false

/-- Does a client-call outcome stand for a raised `FetchDataError`? -/
def isFetchDataError {α : Type} : Except PyError α → Bool
  | .error (.fetchDataError _) => true
  | _ => false

/-- Did the call return normally? -/
def exceptOk {ε α : Type} : Except ε α → Bool
  | .ok _ => true
  | .error _ => false

/-- The coordinator's published state: the last good snapshot and the last
recorded error. -/
structure PollState where
  last_snapshot : Option OmadaCoordData
  last_error : Option String
  deriving Repr, DecidableEq

/-- Modelled from the spec: the host framework's publish step
(`DataUpdateCoordinator` is not code of this repository) — "On success
... build an immutable Snapshot, publish it (replace
`PollState.last_snapshot` atomically) ... clear `last_error`"; "On
[failure] ... set `last_error` to a normalized description ... and keep
the previous snapshot intact". -/
def coordinatorTick (ps : PollState) (r : Except PyError OmadaCoordData) : PollState :=
  match r with
  | .ok d => { last_snapshot := some d, last_error := none }
  | .error e => { ps with last_error := some (pyMsg e) }

/-- Run a sequence of ticks from a given poll state. -/
def runTicks (ps : PollState) (rs : List (Except PyError OmadaCoordData)) : PollState :=
  rs.foldl coordinatorTick ps

/-- The value of the most recent successful tick of a sequence, if any. -/
def lastSuccess (rs : List (Except PyError OmadaCoordData)) : Option OmadaCoordData :=
  rs.foldl (fun acc r => match r with | .ok d => some d | .error _ => acc) none

/-- Poll state at coordinator start: nothing published yet. -/
def initPollState : PollState := { last_snapshot := none, last_error := none }

/-- The update outcome of one Omada tick against a given client state and
world. -/
def omadaTickResult (t : ClientState × FetchWorld × String) :
    Except PyError OmadaCoordData :=
  (omada_async_update_data t.1 t.2.1 t.2.2).2

def isLoginErr {α : Type} : Except PyError α → Bool
  | .error (.loginError _) => true
  | _ => false

def w7State : ClientState :=
  { host := "https://10.0.0.2", username := "admin", password := "pw",
    hasSession := true, loggedIn := true }

def w7World : LoginWorld := { connectFails := none, loginResult := HttpOutcome.timeout }

def c4State : ClientState :=
  { host := "https://10.0.0.2", username := "admin", password := "pw",
    hasSession := true, loggedIn := false }

def c4Response : LoginResponse :=
  { status := 200, body := "<html>error</html>", contentLength := none, jsessionid := none }

def c4World : LoginWorld :=
  { connectFails := none, loginResult := HttpOutcome.resp c4Response }

def c10State : ClientState :=
  { host := "https://10.0.0.2", username := "admin", password := "pw",
    hasSession := false, loggedIn := false }

def c10World : LogoutWorld := { result := HttpOutcome.timeout }

def c1State : ClientState :=
  { host := "https://10.0.0.2", username := "admin", password := "pw",
    hasSession := true, loggedIn := true }

def c1Response : FetchResponse :=
  { status := 401, parsed := Except.error "Unauthorized", body := "Unauthorized" }

def c1World : FetchWorld :=
  { login := { connectFails := none, loginResult := HttpOutcome.timeout },
    fetchResult := HttpOutcome.resp c1Response }

def c5State : ClientState :=
  { host := "https://10.0.0.2", username := "admin", password := "pw",
    hasSession := true, loggedIn := true }

def c5World : LogoutWorld := { result := HttpOutcome.resp 500 }

def c5OkWorld : LogoutWorld := { result := HttpOutcome.resp 200 }

def c6State : ClientState :=
  { host := "https://10.0.0.2", username := "admin", password := "pw",
    hasSession := true, loggedIn := false }

def c6World : DeviceWorld :=
  { fetchResult := HttpOutcome.resp
      { status := 200, parsed := Except.ok { dataField := some [] }, body := "" } }

def c6cState : ClientState :=
  { host := "https://10.0.0.2", username := "admin", password := "pw",
    hasSession := true, loggedIn := false }

def c6cWorld : FetchWorld :=
  { login := { connectFails := none, loginResult := HttpOutcome.timeout },
    fetchResult := HttpOutcome.timeout }

def c9State : ClientState :=
  { host := "https://10.0.0.2", username := "admin", password := "pw",
    hasSession := false, loggedIn := false }

def c9World : FetchWorld :=
  { login := { connectFails := some "boom", loginResult := HttpOutcome.timeout },
    fetchResult := HttpOutcome.timeout }

def c9wState : ClientState :=
  { host := "https://10.0.0.2", username := "admin", password := "pw",
    hasSession := true, loggedIn := true }

def c9wWorld : FetchWorld :=
  { login := { connectFails := none, loginResult := HttpOutcome.timeout },
    fetchResult := HttpOutcome.timeout }

theorem loginHandler_isLoginError (e : PyError) : ∃ m, loginHandler e = PyError.loginError m := by
  cases e <;> exact ⟨_, rfl⟩

theorem fetchHandler_isFetchDataError (e : PyError) :
    ∃ m, fetchHandler e = PyError.fetchDataError m := by
  cases e <;> exact ⟨_, rfl⟩

theorem loginAndWrap_classify (d : String → String) (st : ClientState) (w : LoginWorld) :
    (loginAndWrap d st w).2.2 = Except.ok () ∨
    ∃ m, (loginAndWrap d st w).2.2 = Except.error (PyError.loginError m) := by
  unfold loginAndWrap
  cases hr : (loginAttemptWith d st w).2.2 with
  | error e =>
    rcases loginHandler_isLoginError e with ⟨m, hm⟩
    simp [hr, hm]
  | ok u => simp [hr]

theorem ensureWith_classify (d : String → String) (st : ClientState) (w : LoginWorld) :
    (ensureAuthenticatedWith d st w).2.2 = Except.ok () ∨
    (∃ m, (ensureAuthenticatedWith d st w).2.2 = Except.error (PyError.loginError m)) ∨
    (st.loggedIn = false ∧ st.hasSession = false ∧ ∃ m, w.connectFails = some m ∧
      (ensureAuthenticatedWith d st w).2.2 =
        Except.error (PyError.omadaClientError ("Failed to establish HTTP session: " ++ m))) := by
  unfold ensureAuthenticatedWith
  by_cases hl : st.loggedIn = true
  · simp [hl]
  · by_cases hs : st.hasSession = true
    · simp only [hl, hs, if_true, if_false]
      rcases loginAndWrap_classify d st w with h | ⟨m, h⟩ <;> simp [h]
    · cases hc : w.connectFails with
      | some m =>
        simp only [Bool.not_eq_true] at hl hs
        simp [hl, hs, connect, hc]
      | none =>
        simp only [Bool.not_eq_true] at hl hs
        simp only [hl, hs, if_false, connect, hc, Bool.false_eq_true]
        rcases loginAndWrap_classify d { st with hasSession := true } w with h | ⟨m, h⟩ <;>
          rw [hl] at h <;> simp [h]

theorem loginAttemptWith_requests (d : String → String) (st : ClientState) (w : LoginWorld) :
    (loginAttemptWith d st w).2.1 =
      [Request.loginPost (loginPayloadWith d st.username st.password)] := by
  unfold loginAttemptWith
  cases hw : w.loginResult with
  | resp r =>
    cases hj : r.jsessionid <;> (simp only [hj]; split_ifs <;> rfl)
  | connError m => rfl
  | timeout => rfl
  | raised m => rfl

theorem loginAttemptWith_cases (d : String → String) (st : ClientState) (w : LoginWorld) :
    ((loginAttemptWith d st w).1 = st ∧ ∃ e, (loginAttemptWith d st w).2.2 = Except.error e) ∨
    ((loginAttemptWith d st w).1 = { st with loggedIn := true } ∧
      (loginAttemptWith d st w).2.2 = Except.ok () ∧
      ∃ r v, w.loginResult = HttpOutcome.resp r ∧ r.jsessionid = some v ∧ v ≠ "") := by
  unfold loginAttemptWith
  cases hw : w.loginResult with
  | resp r =>
    cases hj : r.jsessionid with
    | none =>
      simp only [hj]
      split_ifs <;> simp_all
    | some v =>
      simp only [hj]
      split_ifs <;> simp_all
  | connError m => simp
  | timeout => simp
  | raised m => simp

theorem ensureWith_noop (d : String → String) (st : ClientState) (w : LoginWorld)
    (h : st.loggedIn = true) :
    ensureAuthenticatedWith d st w = (st, [], Except.ok ()) := by
  simp [ensureAuthenticatedWith, h]

theorem loginAndWrap_state_cases (d : String → String) (st : ClientState) (w : LoginWorld) :
    ((loginAndWrap d st w).1 = st ∧ ∃ e, (loginAndWrap d st w).2.2 = Except.error e) ∨
    ((loginAndWrap d st w).1 = { st with loggedIn := true } ∧
      (loginAndWrap d st w).2.2 = Except.ok () ∧
      ∃ r v, w.loginResult = HttpOutcome.resp r ∧ r.jsessionid = some v ∧ v ≠ "") := by
  unfold loginAndWrap
  rcases loginAttemptWith_cases d st w with ⟨h1, e, h2⟩ | ⟨h1, h2, h3⟩
  · refine Or.inl ?_
    simp [h1, h2]
  · refine Or.inr ?_
    obtain ⟨r, v, hw, hj, hv⟩ := h3
    simp [h1, h2]
    exact ⟨r, hw, v, hj, hv⟩

theorem loginAndWrap_requests (d : String → String) (st : ClientState) (w : LoginWorld) :
    (loginAndWrap d st w).2.1 =
      [Request.loginPost (loginPayloadWith d st.username st.password)] := by
  unfold loginAndWrap
  cases hr : (loginAttemptWith d st w).2.2 <;>
    simp [hr, loginAttemptWith_requests]

theorem ensureWith_loggedIn_source (d : String → String) (st : ClientState) (w : LoginWorld)
    (h : (ensureAuthenticatedWith d st w).1.loggedIn = true) :
    st.loggedIn = true ∨
      ∃ r v, w.loginResult = HttpOutcome.resp r ∧ r.jsessionid = some v ∧ v ≠ "" := by
  by_cases hl : st.loggedIn = true
  · exact Or.inl hl
  · right
    unfold ensureAuthenticatedWith at h
    simp only [Bool.not_eq_true] at hl
    rw [hl] at h
    simp only [Bool.false_eq_true, if_false] at h
    by_cases hs : st.hasSession = true
    · rw [hs] at h
      simp only [if_true] at h
      rcases loginAndWrap_state_cases d st w with ⟨h1, e, h2⟩ | ⟨h1, h2, h3⟩
      · rw [h1] at h
        rw [hl] at h
        exact absurd h (by simp)
      · exact h3
    · simp only [Bool.not_eq_true] at hs
      rw [hs] at h
      simp only [Bool.false_eq_true, if_false] at h
      cases hc : w.connectFails with
      | some m =>
        simp [connect, hc, hl] at h
      | none =>
        simp only [connect, hc] at h
        rcases loginAndWrap_state_cases d { st with hasSession := true } w with
          ⟨h1, e, h2⟩ | ⟨h1, h2, h3⟩
        · rw [h1] at h
          simp [hl] at h
        · exact h3

theorem loginAttemptWith_no_marker (d : String → String) (st : ClientState) (w : LoginWorld)
    (r : LoginResponse) (hresp : w.loginResult = HttpOutcome.resp r)
    (hstatus : r.status = 200)
    (hmarker : strContains (strLower r.body) "success" = false)
    (hcookie : r.jsessionid = none) :
    (loginAttemptWith d st w).1 = st ∧
      ∃ m, (loginAttemptWith d st w).2.2 = Except.error (PyError.loginError m) := by
  unfold loginAttemptWith
  rw [hresp]
  simp only [hstatus, hmarker, hcookie, beq_self_eq_true, if_true, Bool.false_or]
  cases hcl : r.contentLength == some "0" <;> simp [hcl, hcookie]

theorem ensureWith_attempt_fail (d : String → String) (st : ClientState) (w : LoginWorld)
    (hl : st.loggedIn = false)
    (hconn : st.hasSession = true ∨ w.connectFails = none)
    (hfail : ∀ st', (loginAttemptWith d st' w).1 = st' ∧
      ∃ m, (loginAttemptWith d st' w).2.2 = Except.error (PyError.loginError m)) :
    (∃ m, (ensureAuthenticatedWith d st w).2.2 = Except.error (PyError.loginError m)) ∧
    (ensureAuthenticatedWith d st w).1.loggedIn = false := by
  have go : ∀ st', st'.loggedIn = false →
      (∃ m, (loginAndWrap d st' w).2.2 = Except.error (PyError.loginError m)) ∧
      (loginAndWrap d st' w).1.loggedIn = false := by
    intro st' hst'
    obtain ⟨h1, m, h2⟩ := hfail st'
    simp only [loginAndWrap, h2, h1]
    exact ⟨⟨_, rfl⟩, hst'⟩
  unfold ensureAuthenticatedWith
  rw [hl]
  simp only [Bool.false_eq_true, if_false]
  by_cases hs : st.hasSession = true
  · rw [hs]
    simp only [if_true]
    exact go st hl
  · simp only [Bool.not_eq_true] at hs
    rw [hs]
    have hc : w.connectFails = none := by
      rcases hconn with h | h
      · rw [h] at hs; exact absurd hs (by simp)
      · exact h
    simp only [Bool.false_eq_true, if_false, connect, hc]
    exact go { st with hasSession := true } (by simpa using hl)

theorem ensureWith_requests (d : String → String) (st : ClientState) (w : LoginWorld)
    (hl : st.loggedIn = false)
    (hconn : st.hasSession = true ∨ w.connectFails = none) :
    (ensureAuthenticatedWith d st w).2.1 =
      [Request.loginPost (loginPayloadWith d st.username st.password)] := by
  unfold ensureAuthenticatedWith
  rw [hl]
  simp only [Bool.false_eq_true, if_false]
  by_cases hs : st.hasSession = true
  · rw [hs]
    simp only [if_true]
    exact loginAndWrap_requests d st w
  · simp only [Bool.not_eq_true] at hs
    rw [hs]
    have hc : w.connectFails = none := by
      rcases hconn with h | h
      · rw [h] at hs; exact absurd hs (by simp)
      · exact h
    simp only [Bool.false_eq_true, if_false, connect, hc]
    exact loginAndWrap_requests d { st with hasSession := true } w

theorem ensureWith_connectFail (d : String → String) (st : ClientState) (w : LoginWorld)
    (m : String) (hl : st.loggedIn = false) (hs : st.hasSession = false)
    (hc : w.connectFails = some m) :
    ensureAuthenticatedWith d st w =
      (st, [], Except.error (PyError.omadaClientError
        ("Failed to establish HTTP session: " ++ m))) := by
  unfold ensureAuthenticatedWith
  rw [hl, hs]
  simp [connect, hc]

theorem ensureWith_ok_state (d : String → String) (st : ClientState) (w : LoginWorld)
    (h : (ensureAuthenticatedWith d st w).2.2 = Except.ok ()) :
    (ensureAuthenticatedWith d st w).1.loggedIn = true := by
  by_cases hl : st.loggedIn = true
  · rw [ensureWith_noop d st w hl]
    exact hl
  · simp only [Bool.not_eq_true] at hl
    unfold ensureAuthenticatedWith at h ⊢
    rw [hl] at h ⊢
    simp only [Bool.false_eq_true, if_false] at h ⊢
    by_cases hs : st.hasSession = true
    · rw [hs] at h ⊢
      simp only [if_true] at h ⊢
      rcases loginAndWrap_state_cases d st w with ⟨h1, e, h2⟩ | ⟨h1, h2, h3⟩
      · rw [h2] at h; exact absurd h (by simp)
      · rw [h1]
    · simp only [Bool.not_eq_true] at hs
      rw [hs] at h ⊢
      simp only [Bool.false_eq_true, if_false] at h ⊢
      cases hc : w.connectFails with
      | some m =>
        simp [connect, hc] at h
      | none =>
        simp only [connect, hc] at h ⊢
        rcases loginAndWrap_state_cases d { st with hasSession := true } w with
          ⟨h1, e, h2⟩ | ⟨h1, h2, h3⟩
        · rw [h2] at h; exact absurd h (by simp)
        · rw [h1]

theorem ensureWith_hasSession (d : String → String) (st : ClientState) (w : LoginWorld)
    (hl : st.loggedIn = false) (hs : st.hasSession = false) (hc : w.connectFails = none) :
    (ensureAuthenticatedWith d st w).1.hasSession = true := by
  unfold ensureAuthenticatedWith
  rw [hl, hs]
  simp only [Bool.false_eq_true, if_false, connect, hc]
  rcases loginAndWrap_state_cases d { st with hasSession := true } w with
    ⟨h1, _, _⟩ | ⟨h1, _, _⟩ <;> rw [h1]

/-- C7: `ensure_authenticated` attempts a login iff `logged_in` is
false — when the flag is set it returns immediately with no request and
no state change (hence a second call after a success is again a no-op),
and when the flag is clear it establishes the transport if absent and
issues exactly one login POST. -/
theorem C7_ensure_authenticated_guard (st : ClientState) (w w2 : LoginWorld) :
    (st.loggedIn = true → ensure_authenticated st w = (st, [], Except.ok ())) ∧
    ((ensure_authenticated st w).2.2 = Except.ok () →
      (ensure_authenticated st w).1.loggedIn = true ∧
      ensure_authenticated (ensure_authenticated st w).1 w2 =
        ((ensure_authenticated st w).1, [], Except.ok ())) ∧
    (st.loggedIn = false → st.hasSession = true →
      (ensure_authenticated st w).2.1 =
        [Request.loginPost (loginPayload st.username st.password)]) ∧
    (st.loggedIn = false → st.hasSession = false → w.connectFails = none →
      (ensure_authenticated st w).1.hasSession = true ∧
      (ensure_authenticated st w).2.1 =
        [Request.loginPost (loginPayload st.username st.password)]) := by
  refine ⟨fun hl => ensureWith_noop md5HexDigest st w hl,
    fun hok => ⟨ensureWith_ok_state md5HexDigest st w hok,
      ensureWith_noop md5HexDigest _ w2 (ensureWith_ok_state md5HexDigest st w hok)⟩,
    fun hl hs => ensureWith_requests md5HexDigest st w hl (Or.inl hs),
    fun hl hs hc => ⟨ensureWith_hasSession md5HexDigest st w hl hs hc,
      ensureWith_requests md5HexDigest st w hl (Or.inr hc)⟩⟩

/-- Witness for C7 at a concrete already-authenticated client. -/
theorem C7_witness : ensure_authenticated w7State w7World = (w7State, [], Except.ok ()) :=
  (C7_ensure_authenticated_guard w7State w7World w7World).1 rfl

/-- C4: a login answered with HTTP 200 whose body has no success marker
and which sets no session cookie makes `ensure_authenticated` fail with
`LoginError` and leaves `logged_in` false; moreover `logged_in` can only
become true when the `JSESSIONID` cookie is present with a non-empty
value. -/
theorem C4_login_no_marker_no_cookie (st : ClientState) (w : LoginWorld) (r : LoginResponse)
    (hlog : st.loggedIn = false)
    (hconn : st.hasSession = true ∨ w.connectFails = none)
    (hresp : w.loginResult = HttpOutcome.resp r)
    (hstatus : r.status = 200)
    (hmarker : strContains (strLower r.body) "success" = false)
    (hcookie : r.jsessionid = none) :
    (∃ m, (ensure_authenticated st w).2.2 = Except.error (PyError.loginError m)) ∧
    (ensure_authenticated st w).1.loggedIn = false ∧
    (∀ st2 w2, (ensure_authenticated st2 w2).1.loggedIn = true →
      st2.loggedIn = true ∨
        ∃ r2 v, w2.loginResult = HttpOutcome.resp r2 ∧ r2.jsessionid = some v ∧ v ≠ "") := by
  have hfail := fun st' =>
    loginAttemptWith_no_marker md5HexDigest st' w r hresp hstatus hmarker hcookie
  have main := ensureWith_attempt_fail md5HexDigest st w hlog hconn hfail
  exact ⟨main.1, main.2, fun st2 w2 h => ensureWith_loggedIn_source md5HexDigest st2 w2 h⟩

/-- Witness for C4 at a concrete 200-without-marker-or-cookie login. -/
theorem C4_witness :
    isLoginErr (ensure_authenticated c4State c4World).2.2 = true ∧
    (ensure_authenticated c4State c4World).1.loggedIn = false := by
  obtain ⟨⟨m, hm⟩, h2, _⟩ := C4_login_no_marker_no_cookie c4State c4World c4Response
    rfl (Or.inl rfl) rfl rfl (by decide) rfl
  exact ⟨by rw [hm]; rfl, h2⟩

/-- C10: `logout` called without a session or while not logged in is a
silent no-op — no request, no error, state unchanged. -/
theorem C10_logout_silent_noop (st : ClientState) (w : LogoutWorld)
    (h : st.hasSession = false ∨ st.loggedIn = false) :
    logout st w = (st, [], Except.ok ()) := by
  unfold logout
  rcases h with h | h <;> simp [h]

/-- Witness for C10 at a concrete logged-out client. -/
theorem C10_witness : logout c10State c10World = (c10State, [], Except.ok ()) :=
  C10_logout_silent_noop c10State c10World (Or.inl rfl)

/-- C1: code behaviour at the failing input.  A fetch while authenticated
that is answered with HTTP 401 makes `fetch_clients` raise
`FetchDataError`, but `logged_in` is NOT cleared: it stays `true`, so the
next cycle's `ensure_authenticated` is a no-op and never re-authenticates
— contrary to the claim's second half. -/
theorem C1_fetch401_code_behavior :
    (fetch_clients c1State c1World).2.2 =
      Except.error (PyError.fetchDataError
        "An unexpected error occurred while fetching data: Failed to fetch data with status code 401.") ∧
    (fetch_clients c1State c1World).1.loggedIn = true ∧
    ensure_authenticated (fetch_clients c1State c1World).1 c1World.login =
      ((fetch_clients c1State c1World).1, [], Except.ok ()) := by
  exact ⟨rfl, rfl, rfl⟩

/-- C5 counterexample: a logout answered with HTTP 500 raises
`LogoutError` and `logged_in` stays `true` — the flag is not cleared
"regardless of the remote response". -/
theorem C5_counterexample :
    (logout c5State c5World).1.loggedIn = true ∧
    (logout c5State c5World).2.2 =
      Except.error (PyError.logoutError
        "An unexpected error occurred during logout: Logout failed with status code 500.") := by
  exact ⟨rfl, rfl⟩

/-- C5 (amended): `logout` clears `logged_in` only when the remote
answers HTTP 200; on any non-200 status it raises `LogoutError` and
leaves the client state unchanged, and it returns without error exactly
when the flag was cleared. -/
theorem C5_amended (st : ClientState) (w : LogoutWorld)
    (hs : st.hasSession = true) (hl : st.loggedIn = true) :
    (w.result = HttpOutcome.resp 200 →
      logout st w = ({ st with loggedIn := false }, [Request.logoutGet], Except.ok ())) ∧
    (∀ n, w.result = HttpOutcome.resp n → n ≠ 200 →
      (logout st w).1 = st ∧
        ∃ m, (logout st w).2.2 = Except.error (PyError.logoutError m)) ∧
    ((logout st w).2.2 = Except.ok () → (logout st w).1.loggedIn = false) := by
  unfold logout
  rw [hs, hl]
  simp only [Bool.not_true, Bool.or_self, Bool.false_eq_true, if_false]
  refine ⟨fun h200 => by simp [h200], fun n hn h200 => ?_, fun hok => ?_⟩
  · rw [hn]
    have hb : (n == 200) = false := by simpa using h200
    refine ⟨by simp [hb], ?_⟩
    simp only [hb, Bool.false_eq_true, if_false]
    exact ⟨_, rfl⟩
  · cases hw : w.result with
    | resp n =>
      rw [hw] at hok
      by_cases h200 : (n == 200) = true
      · simp [h200]
      · simp only [Bool.not_eq_true] at h200
        simp [h200] at hok
    | connError m => rw [hw] at hok; simp at hok
    | timeout => rw [hw] at hok; simp at hok
    | raised m => rw [hw] at hok; simp at hok

/-- Witness for C5 (amended) at a concrete 200 logout. -/
theorem C5_witness :
    logout c5State c5OkWorld =
      ({ c5State with loggedIn := false }, [Request.logoutGet], Except.ok ()) :=
  (C5_amended c5State c5OkWorld rfl rfl).1 rfl

/-- C6 counterexample: `fetch_device_info` called while not logged in
issues the data GET directly, with no login POST before it. -/
theorem C6_counterexample :
    c6State.loggedIn = false ∧
    (fetch_device_info c6State c6World).2.1 = [Request.deviceGet [("operation", "read")]] ∧
    (fetch_device_info c6State c6World).2.1.any isLoginPost = false ∧
    (fetch_device_info c6State c6World).2.2 = Except.ok { dataField := some [] } := by
  exact ⟨rfl, rfl, rfl, rfl⟩

/-- C6 (amended): `fetch_clients` started unauthenticated issues the
login POST as its first request (or performs no request at all when the
transport cannot be established, failing with `OmadaClientError`);
`fetch_device_info`, by contrast, never issues a login POST. -/
theorem C6_amended (st : ClientState) (w : FetchWorld) (hlog : st.loggedIn = false) :
    ((fetch_clients st w).2.1.head? =
        some (Request.loginPost (loginPayload st.username st.password)) ∨
      ((fetch_clients st w).2.1 = [] ∧
        ∃ m, (fetch_clients st w).2.2 = Except.error (PyError.omadaClientError m))) ∧
    (∀ st2 w2, (fetch_device_info st2 w2).2.1.any isLoginPost = false) := by
  constructor
  · by_cases hcase : st.hasSession = true ∨ w.login.connectFails = none
    · left
      have hreq := ensureWith_requests md5HexDigest st w.login hlog hcase
      unfold fetch_clients fetchClientsWith
      cases ha : (ensureAuthenticatedWith md5HexDigest st w.login).2.2 with
      | error e =>
        cases e <;> simp [ha, hreq, loginPayload]
      | ok u =>
        cases hf : (fetchAttempt w).2 <;> simp [ha, hreq, hf, loginPayload]
    · right
      push_neg at hcase
      obtain ⟨hs, hc⟩ := hcase
      simp only [Bool.not_eq_true] at hs
      cases hcv : w.login.connectFails with
      | none => exact absurd hcv hc
      | some m =>
        have he := ensureWith_connectFail md5HexDigest st w.login m hlog hs hcv
        unfold fetch_clients fetchClientsWith
        rw [he]
        exact ⟨rfl, _, rfl⟩
  · intro st2 w2
    unfold fetch_device_info
    by_cases hs : st2.hasSession = true
    · rw [hs]
      simp only [if_true]
      cases hw : w2.fetchResult with
      | resp r =>
        by_cases h200 : (r.status == 200) = true
        · cases hp : r.parsed <;> simp [h200, hp, isLoginPost]
        · simp only [Bool.not_eq_true] at h200
          simp [h200, isLoginPost]
      | connError m => simp [isLoginPost]
      | timeout => simp [isLoginPost]
      | raised m => simp [isLoginPost]
    · simp only [Bool.not_eq_true] at hs
      rw [hs]
      simp

/-- Witness for C6 (amended) at a concrete unauthenticated fetch. -/
theorem C6_witness :
    (fetch_clients c6cState c6cWorld).2.1.head? =
        some (Request.loginPost (loginPayload c6cState.username c6cState.password)) ∨
      ((fetch_clients c6cState c6cWorld).2.1 = [] ∧
        ∃ m, (fetch_clients c6cState c6cWorld).2.2 =
          Except.error (PyError.omadaClientError m)) :=
  (C6_amended c6cState c6cWorld rfl).1

/-- C9 counterexample: when the transport session cannot be
established, `fetch_clients` propagates the plain `OmadaClientError`
raised by `connect` without wrapping it into `FetchDataError`. -/
theorem C9_counterexample :
    (fetch_clients c9State c9World).2.2 =
      Except.error (PyError.omadaClientError "Failed to establish HTTP session: boom") ∧
    isFetchDataError (fetch_clients c9State c9World).2.2 = false := ⟨rfl, rfl⟩

theorem fetch_clients_classify (st : ClientState) (w : FetchWorld) :
    (∃ d, (fetch_clients st w).2.2 = Except.ok d) ∨
    (∃ m, (fetch_clients st w).2.2 = Except.error (PyError.fetchDataError m)) ∨
    (st.hasSession = false ∧ ∃ m, w.login.connectFails = some m ∧
      (fetch_clients st w).2.2 =
        Except.error (PyError.omadaClientError ("Failed to establish HTTP session: " ++ m))) := by
  unfold fetch_clients fetchClientsWith
  rcases ensureWith_classify md5HexDigest st w.login with hok | ⟨m, herr⟩ | ⟨hl2, hs2, m, hc2, herr⟩
  · cases hf : (fetchAttempt w).2 with
    | error e =>
      rcases fetchHandler_isFetchDataError e with ⟨m2, hm2⟩
      refine Or.inr (Or.inl ⟨m2, ?_⟩)
      simp [hok, hf, hm2]
    | ok d =>
      refine Or.inl ⟨d, ?_⟩
      simp [hok, hf]
  · refine Or.inr (Or.inl ⟨"Authentication failed: " ++ m, ?_⟩)
    simp [herr]
  · refine Or.inr (Or.inr ⟨hs2, m, hc2, ?_⟩)
    simp [herr]

/-- C9 (amended): `fetch_clients` never raises `LoginError` (an
authentication failure is wrapped into `FetchDataError`), and whenever a
transport session exists or can be established every failure surfaces as
`FetchDataError`; only a transport-establishment failure escapes as a
plain `OmadaClientError`. -/
theorem C9_amended (st : ClientState) (w : FetchWorld) :
    (∀ m, (fetch_clients st w).2.2 ≠ Except.error (PyError.loginError m)) ∧
    (st.hasSession = true ∨ w.login.connectFails = none →
      (∃ d, (fetch_clients st w).2.2 = Except.ok d) ∨
        ∃ m, (fetch_clients st w).2.2 = Except.error (PyError.fetchDataError m)) := by
  rcases fetch_clients_classify st w with ⟨d, h⟩ | ⟨m, h⟩ | ⟨hs2, m, hc2, h⟩
  · exact ⟨fun m2 => by rw [h]; simp, fun _ => Or.inl ⟨d, h⟩⟩
  · exact ⟨fun m2 => by rw [h]; simp, fun _ => Or.inr ⟨m, h⟩⟩
  · refine ⟨fun m2 => by rw [h]; simp, fun hyp => ?_⟩
    rcases hyp with ht | hn
    · rw [ht] at hs2; exact absurd hs2 (by simp)
    · rw [hn] at hc2; exact absurd hc2 (by simp)

/-- Witness for C9 (amended) at a concrete authenticated client. -/
theorem C9_witness :
    (fetch_clients c9wState c9wWorld).2.2 ≠ Except.error (PyError.loginError "x") ∧
    ((∃ d, (fetch_clients c9wState c9wWorld).2.2 = Except.ok d) ∨
      ∃ m, (fetch_clients c9wState c9wWorld).2.2 =
        Except.error (PyError.fetchDataError m)) :=
  ⟨(C9_amended c9wState c9wWorld).1 "x", (C9_amended c9wState c9wWorld).2 (Or.inl rfl)⟩

theorem runTicks_last_snapshot (rs : List (Except PyError OmadaCoordData)) :
    ∀ ps : PollState, (runTicks ps rs).last_snapshot =
      rs.foldl (fun acc r => match r with | .ok d => some d | .error _ => acc)
        ps.last_snapshot := by
  induction rs with
  | nil => intro ps; rfl
  | cons r rs ih =>
    intro ps
    have h1 : runTicks ps (r :: rs) = runTicks (coordinatorTick ps r) rs := rfl
    rw [h1, ih]
    cases r <;> rfl

/-- C2: over every sequence of coordinator ticks driven by
`omada_async_update_data`, the published `last_snapshot` is `none` until a
tick succeeds and afterwards exactly the value of the most recent
successful tick; a failed tick keeps the snapshot and records the error,
a successful tick replaces it and clears the error. -/
theorem C2_snapshot_invariant (ticks : List (ClientState × FetchWorld × String)) :
    (runTicks initPollState (ticks.map omadaTickResult)).last_snapshot =
      lastSuccess (ticks.map omadaTickResult) ∧
    (∀ ps e, coordinatorTick ps (Except.error e) =
      { last_snapshot := ps.last_snapshot, last_error := some (pyMsg e) }) ∧
    (∀ ps d, coordinatorTick ps (Except.ok d) =
      { last_snapshot := some d, last_error := none }) := by
  refine ⟨?_, fun ps e => rfl, fun ps d => rfl⟩
  rw [runTicks_last_snapshot]
  rfl

/-- C3 counterexample: the Cowboy coordinator's update propagates a raw
`TimeoutError` unchanged — it is not normalized into `UpdateFailed`. -/
theorem C3_counterexample :
    cowboy_async_update_data (Except.error PyError.timeoutError) =
      Except.error PyError.timeoutError ∧
    isUpdateFailed (cowboy_async_update_data (Except.error PyError.timeoutError)) = false :=
  ⟨rfl, rfl⟩

/-- C3 (amended): the Omada coordinator's update never propagates a raw
client exception — every failure becomes `UpdateFailed`; the Cowboy
coordinator normalizes only `KeyError` into `UpdateFailed` and returns
successful fetches unchanged (any other exception propagates raw, as the
counterexample shows). -/
theorem C3_amended :
    (∀ (st : ClientState) (w : FetchWorld) (mac : String),
      exceptOk (omada_async_update_data st w mac).2 = true ∨
        ∃ m, (omada_async_update_data st w mac).2 =
          Except.error (PyError.updateFailed m)) ∧
    (∀ m, cowboy_async_update_data (Except.error (PyError.keyError m)) =
      Except.error (PyError.updateFailed "Unable to fetch data from Cowboy API")) ∧
    (∀ d, cowboy_async_update_data (Except.ok d) = Except.ok d) := by
  refine ⟨fun st w mac => ?_, fun m => rfl, fun d => rfl⟩
  unfold omada_async_update_data
  cases ha : (ensure_authenticated st w.login).2.2 with
  | error e => exact Or.inr ⟨"Error fetching data: " ++ pyMsg e, by simp [ha]⟩
  | ok u =>
    cases hf : (fetch_clients (ensure_authenticated st w.login).1 w).2.2 with
    | error e =>
      exact Or.inr ⟨"Error fetching data: " ++ pyMsg e, by simp [ha, hf]⟩
    | ok d => exact Or.inl (by simp [ha, hf, exceptOk])

theorem leBytes_length (n : Nat) : ∀ v, (leBytes n v).length = n := by
  induction n with
  | zero => intro v; rfl
  | succ k ih => intro v; simp [leBytes, ih]

theorem md5Digest_length (msg : List Nat) : (md5Digest msg).length = 16 := by
  unfold md5Digest
  simp [List.length_append, leBytes_length]

theorem flatten_byteToHex_length (bs : List Nat) :
    ((bs.map byteToHex).flatten).length = 2 * bs.length := by
  induction bs with
  | nil => rfl
  | cons b bs ih =>
    simp only [List.map_cons, List.flatten_cons, List.length_append, ih, byteToHex,
      List.length_cons, List.length_nil]
    ring

theorem md5HexDigest_length (s : String) : (md5HexDigest s).length = 32 := by
  show (((md5Digest (s.toUTF8.toList.map UInt8.toNat)).map byteToHex).flatten).length = 32
  rw [flatten_byteToHex_length, md5Digest_length]

theorem strUpper_length (s : String) : (strUpper s).length = s.length := by
  show (s.toList.map Char.toUpper).length = s.length
  rw [List.length_map]
  rfl

theorem sentPassword_length (p : String) : (strUpper (md5HexDigest p)).length = 32 := by
  rw [strUpper_length, md5HexDigest_length]

theorem sent_ne_plaintext (p : String) (h : p.length ≠ 32) :
    strUpper (md5HexDigest p) ≠ p := by
  intro he
  exact h (by rw [← he, sentPassword_length])

theorem hexChar_mem_of_lt : ∀ n < 16, hexChar n ∈ "0123456789abcdef".toList := by decide

theorem byteToHex_mem (b : Nat) : ∀ c ∈ byteToHex b, c ∈ "0123456789abcdef".toList := by
  intro c hc
  unfold byteToHex at hc
  simp only [List.mem_cons, List.mem_singleton, List.not_mem_nil, or_false] at hc
  rcases hc with rfl | rfl
  · exact hexChar_mem_of_lt _ (by omega)
  · exact hexChar_mem_of_lt _ (by omega)

theorem md5HexDigest_chars (s : String) :
    ∀ c ∈ (md5HexDigest s).toList, c ∈ "0123456789abcdef".toList := by
  intro c hc
  have hc2 : c ∈ ((md5Digest (s.toUTF8.toList.map UInt8.toNat)).map byteToHex).flatten := hc
  rw [List.mem_flatten] at hc2
  obtain ⟨l, hl, hcl⟩ := hc2
  rw [List.mem_map] at hl
  obtain ⟨b, _, rfl⟩ := hl
  exact byteToHex_mem b c hcl

theorem strUpper_hex_chars (s : String) :
    ∀ c ∈ (strUpper (md5HexDigest s)).toList, c ∈ "0123456789ABCDEF".toList := by
  intro c hc
  have hc2 : c ∈ (md5HexDigest s).toList.map Char.toUpper := hc
  rw [List.mem_map] at hc2
  obtain ⟨c0, hc0, rfl⟩ := hc2
  have hall : ∀ c1 ∈ "0123456789abcdef".toList,
      Char.toUpper c1 ∈ "0123456789ABCDEF".toList := by decide
  exact hall c0 (md5HexDigest_chars s c0 hc0)

/-- C8 counterexample: the transmitted password field is a function of
the password alone — identical for different usernames, so the hash is
not keyed — and differs from the plaintext password. -/
theorem C8_counterexample :
    ((loginPayload "alice" "hunter2").getD 1 ("", "")).2 =
      ((loginPayload "bob" "hunter2").getD 1 ("", "")).2 ∧
    ((loginPayload "alice" "hunter2").getD 1 ("", "")).2 ≠ "hunter2" :=
  ⟨rfl, sent_ne_plaintext "hunter2" (by decide)⟩

/-- C8 (amended): the login payload carries the plaintext username and,
in the password field, the uppercased MD5 hex digest of the password — an
unkeyed hash, always 32 uppercase hexadecimal characters — so any
password that is not itself such a string is never sent in plaintext. -/
theorem C8_amended (u p : String) (h : p.length ≠ 32) :
    (loginPayload u p).getD 0 ("", "") = ("username", u) ∧
    ((loginPayload u p).getD 1 ("", "")).1 = "password" ∧
    ((loginPayload u p).getD 1 ("", "")).2 = strUpper (md5HexDigest p) ∧
    ((loginPayload u p).getD 1 ("", "")).2.length = 32 ∧
    (∀ c ∈ ((loginPayload u p).getD 1 ("", "")).2.toList,
      c ∈ "0123456789ABCDEF".toList) ∧
    ((loginPayload u p).getD 1 ("", "")).2 ≠ p :=
  ⟨rfl, rfl, rfl, sentPassword_length p, strUpper_hex_chars p, sent_ne_plaintext p h⟩

/-- Witness for C8 (amended) at a concrete short password. -/
theorem C8_witness :
    ((loginPayload "admin" "hunter2").getD 1 ("", "")).2 ≠ "hunter2" :=
  (C8_amended "admin" "hunter2" (by decide)).2.2.2.2.2

